import Mathlib

/-!
Verification of the cmany build-matrix orchestrator core against its
specification.  The definitions below are a shallow embedding of the Python
sources:

* `src/src/c4/cmany/cmake_sysinfo.py` — the `CMakeCache` configuration cache
  (variable records, `setvar`, typed setters, `commit`, `loadvars`,
  `setcachevars`);
* `src/src/c4/cmany/build.py` — the `Build` entity (tag computation
  `_cat`/`_set_paths`, lifecycle `configure`/`build`/`needs_configure`/
  `needs_build`, `_gather_cmake_vars`, `handle_deps`);
* `src/c4/pycmake/pycmake.py` — the legacy `Build._cat(sep, for_build_dir)`.

Python strings are modelled as Lean `String`s; `re`-based cache-line
operations are modelled by structurally recursive splitters that implement
exactly the semantics of the regular expression
`^(.*?)(:.*?)=(.*)$` used by the source (lazy groups: the name is the text
before the first colon, the type runs up to the first `=` sign after that
colon, the value is the rest).  The filesystem state a `Build` touches is
modelled explicitly (directory existence, sentinel files, the
`CMakeCache.txt` line list).
-/

set_option autoImplicit false

/-- Splits a character list at every occurrence of the separator character,
mirroring Python `str.split(sep)` for a one-character separator:
`"" ↦ [""]`, `":" ↦ ["", ""]`, `"a:b" ↦ ["a", "b"]`. -/
def splitOnCharL (c : Char) : List Char → List (List Char)
  | [] => [[]]
  | x :: xs =>
    let r := splitOnCharL c xs
    if x = c then [] :: r
    else
      match r with
      | [] => [[x]]
      | y :: ys => (x :: y) :: ys

/-- Joins character lists with a one-character separator, the inverse of
`splitOnCharL` and the model of Python `sep.join(parts)`. -/
def joinWithCharL (c : Char) : List (List Char) → List Char
  | [] => []
  | [x] => x
  | x :: y :: ys => x ++ c :: joinWithCharL c (y :: ys)

/-- String-level wrapper of `splitOnCharL`. -/
def strSplitOnChar (c : Char) (s : String) : List String :=
  (splitOnCharL c s.data).map String.mk

/-- String-level wrapper of `joinWithCharL`. -/
def strJoinWithChar (c : Char) (parts : List String) : String :=
  String.mk (joinWithCharL c (parts.map String.data))

/-- Whitespace recognizer used by the model of Python `str.strip()`. -/
def isPySpace (c : Char) : Bool :=
  c = ' ' || c = '\t' || c = '\n' || c = '\r'

/-- Model of Python `str.strip()`: removes leading and trailing whitespace. -/
def pyStrip (s : String) : String :=
  String.mk (((s.data.dropWhile isPySpace).reverse.dropWhile isPySpace).reverse)

/-- Boolean string-prefix test computed structurally on the character lists
(model of Python `str.startswith`). -/
def strIsPrefix (p s : String) : Bool :=
  List.isPrefixOf p.data s.data

/-- Model of the `re.sub(r'\\', r'/', val)` normalization applied by the
path-valued cache setters on Windows. -/
def backslashToSlash (s : String) : String :=
  String.mk (s.data.map (fun ch => if ch = '\\' then '/' else ch))

/-- Tests whether a path is absolute (starts with a slash), the distinction
`os.path.join` uses to discard its first argument. -/
def isAbsPath (s : String) : Bool :=
  match s.data with
  | [] => false
  | c :: _ => c = '/'

/-- Model of `os.path.join(a, b)` for POSIX paths: an absolute second
component replaces the first. -/
def pathJoin (a b : String) : String :=
  if isAbsPath b then b else a ++ "/" ++ b

/-- One variable record of the configuration cache, the embedding of
`CMakeCache.Var` from `cmake_sysinfo.py` (fields `name`, `val`, `vartype`,
`dirty`, `from_input`). -/
structure Var where
  name : String
  val : String
  vartype : String
  dirty : Bool
  from_input : Bool
deriving DecidableEq, Repr

/-- Embedding of `CMakeCache.Var.reset`: applies an explicitly supplied
`from_input`, marks the variable dirty when value or type changed (or when
forced), and returns the updated record together with the reported change
flag (`True` when changed, otherwise the `force_dirty` argument). -/
def Var.reset (v : Var) (val vartype : String) (force_dirty : Bool)
    (from_input : Option Bool) : Var × Bool :=
  let v :=
    match from_input with
    | some fi => { v with from_input := fi }
    | none => v
  if val ≠ v.val ∨ vartype ≠ v.vartype then
    ({ v with val := val, vartype := vartype, dirty := true }, true)
  else if force_dirty then
    ({ v with dirty := true }, true)
  else
    (v, false)

/-- First variable with the given name, the embedding of the ordered-dict
lookup `self.get(name)` used by `CMakeCache.setvar`. -/
def lookupVar (vs : List Var) (n : String) : Option Var :=
  match vs with
  | [] => none
  | v :: rest => if v.name = n then some v else lookupVar rest n

/-- Replaces the first variable with the given name, keeping its position —
the ordered-dict in-place update performed by `CMakeCache.setvar`. -/
def updateVar (vs : List Var) (n : String) (f : Var → Var) : List Var :=
  match vs with
  | [] => []
  | v :: rest => if v.name = n then f v :: rest else v :: updateVar rest n f

/-- Ordered-dict assignment `d[name] = v`: replaces an existing entry in
place, otherwise appends — the model of `self[name] = v` in `setvar` and of
`v[name] = ...` in `loadvars`. -/
def odictSet (vs : List Var) (v : Var) : List Var :=
  match vs with
  | [] => [v]
  | u :: rest => if u.name = v.name then v :: rest else u :: odictSet rest v

/-- Embedding of the in-memory configuration cache `CMakeCache`: an ordered
mapping of variable records plus the aggregate `dirty` flag. -/
structure CMakeCache where
  vars : List Var
  dirty : Bool
deriving DecidableEq, Repr

/-- Ordered-dict lookup on a cache. -/
def CMakeCache.get (c : CMakeCache) (n : String) : Option Var :=
  lookupVar c.vars n

/-- Embedding of `CMakeCache.setvar`: an existing variable is `reset` and the
change flag is or-ed into the aggregate `dirty` flag; an absent name is
inserted as a fresh record that is dirty (note that the source constructs the
new record as `Var(name, val, vartype, dirty=True)`, dropping the
`from_input` keyword, so the inserted record has `from_input = False`). -/
def CMakeCache.setvar (c : CMakeCache) (n val vartype : String)
    (force_dirty : Bool) (from_input : Option Bool) : CMakeCache × Bool :=
  match c.get n with
  | some v =>
    let r := v.reset val vartype force_dirty from_input
    ({ vars := updateVar c.vars n (fun _ => r.1), dirty := c.dirty || r.2 }, r.2)
  | none =>
    ({ vars := c.vars ++ [{ name := n, val := val, vartype := vartype,
                            dirty := true, from_input := false }],
       dirty := true }, true)

/-- Embedding of the boolean setter `CMakeCache.b`. -/
def CMakeCache.bset (c : CMakeCache) (n val : String) (force_dirty : Bool)
    (from_input : Option Bool) : CMakeCache × Bool :=
  c.setvar n val "BOOL" force_dirty from_input

/-- Embedding of the string setter `CMakeCache.s`. -/
def CMakeCache.sset (c : CMakeCache) (n val : String) (force_dirty : Bool)
    (from_input : Option Bool) : CMakeCache × Bool :=
  c.setvar n val "STRING" force_dirty from_input

/-- Embedding of the directory-path setter `CMakeCache.p`; on the
Windows-like platform backslashes are normalized to forward slashes first. -/
def CMakeCache.pset (c : CMakeCache) (windows : Bool) (n val : String)
    (force_dirty : Bool) (from_input : Option Bool) : CMakeCache × Bool :=
  c.setvar n (if windows then backslashToSlash val else val) "PATH"
    force_dirty from_input

/-- Embedding of the file-path setter `CMakeCache.f`, with the same
platform-conditional normalization as `CMakeCache.p`. -/
def CMakeCache.fset (c : CMakeCache) (windows : Bool) (n val : String)
    (force_dirty : Bool) (from_input : Option Bool) : CMakeCache × Bool :=
  c.setvar n (if windows then backslashToSlash val else val) "FILEPATH"
    force_dirty from_input

/-- Embedding of the internal-variable setter `CMakeCache.i`. -/
def CMakeCache.iset (c : CMakeCache) (n val : String) (force_dirty : Bool)
    (from_input : Option Bool) : CMakeCache × Bool :=
  c.setvar n val "INTERNAL" force_dirty from_input

/-- Parses one cache-file line against the pattern `^(.*?)(:.*?)=(.*)$`
(the `_cache_entry` regular expression): the name is the text before the
first colon, the type is the text from there up to the first following `=`,
the value is the rest; lines without such a colon-then-equals shape do not
match. -/
def matchCacheEntry (l : String) : Option (String × String × String) :=
  match strSplitOnChar ':' l with
  | [] => none
  | [_] => none
  | name :: rest =>
    let restStr := strJoinWithChar ':' rest
    match strSplitOnChar '=' restStr with
    | [] => none
    | [_] => none
    | t :: vparts => some (name, t, strJoinWithChar '=' vparts)

/-- Rewrites the value part of a `NAME:TYPE=VALUE` line, keeping the
`NAME:TYPE=` prefix — the effect of
`re.sub(_cache_entry, r'\1\2=' + v, l)` in `setcachevars`.  A line that does
not match the pattern is returned unchanged. -/
def rewriteEntry (l v : String) : String :=
  match strSplitOnChar ':' l with
  | [] => l
  | [_] => l
  | name :: rest =>
    let restStr := strJoinWithChar ':' rest
    match strSplitOnChar '=' restStr with
    | [] => l
    | [_] => l
    | t :: _ => name ++ ":" ++ t ++ "=" ++ v

/-- One key/value pass of the inner loop of `setcachevars`: a line starting
with `name:` has its value rewritten, every other line is untouched. -/
def substOne (k v l : String) : String :=
  if strIsPrefix (k ++ ":") l then rewriteEntry l v else l

/-- The full inner loop of `setcachevars` over one line: every pending
key/value pair is applied in order. -/
def substLine (pairs : List (String × String)) (l : String) : String :=
  pairs.foldl (fun acc kv => substOne kv.1 kv.2 acc) l

/-- Names and values of the dirty variables, in cache order — the `tmp`
ordered dict built by `CMakeCache.commit`. -/
def dirtyPairs (c : CMakeCache) : List (String × String) :=
  (c.vars.filter (fun v => v.dirty)).map (fun v => (v.name, v.val))

/-- The on-disk state `commit` consults for a build directory: whether the
directory exists and, when the persisted `CMakeCache.txt` is present, its
lines. -/
structure CacheDir where
  dirExists : Bool
  cachefile : Option (List String)
deriving DecidableEq, Repr

/-- Embedding of `CMakeCache.commit`: a no-op returning `false` when the
cache is not dirty, the directory argument is `None`, the directory does not
exist, or it holds no persisted cache file; otherwise the dirty variables are
rewritten into the file via `setcachevars`, every variable's dirty flag and
the aggregate flag are cleared, and `true` is returned. -/
def CMakeCache.commit (c : CMakeCache) (bd : Option CacheDir) :
    CMakeCache × Option CacheDir × Bool :=
  match bd with
  | none => (c, none, false)
  | some d =>
    match d.cachefile with
    | none => (c, some d, false)
    | some lines =>
      if c.dirty = false ∨ d.dirExists = false then (c, some d, false)
      else
        ({ vars := c.vars.map (fun v => { v with dirty := false }),
           dirty := false },
         some { dirExists := d.dirExists,
                cachefile := some (lines.map (substLine (dirtyPairs c))) },
         true)

/-- Embedding of `loadvars`: an absent directory or file yields an empty
mapping; otherwise every line matching `NAME:TYPE=VALUE` (after stripping)
is stored as a clean variable, later duplicates replacing earlier ones in
place. -/
def loadvars (cachefile : Option (List String)) : List Var :=
  match cachefile with
  | none => []
  | some lines =>
    lines.foldl
      (fun acc l =>
        match matchCacheEntry (pyStrip l) with
        | none => acc
        | some (n, t, v) =>
          odictSet acc { name := n, val := v, vartype := t,
                         dirty := false, from_input := false })
      []

/-- Embedding of the `CMakeCache` constructor: the variables are loaded from
the persisted cache file (empty when absent) and the aggregate dirty flag
starts out `false`. -/
def CMakeCache.load (cachefile : Option (List String)) : CMakeCache :=
  { vars := loadvars cachefile, dirty := false }

/-- The cache of a build directory that has never been configured. -/
def emptyCache : CMakeCache := CMakeCache.load none

/-- A variant axis value; its identity is its name string. -/
structure Variant where
  name : String
deriving DecidableEq, Repr

/-- The axis values a `Build` is constructed from, each reduced to its
identity string (axis values stringify to their names); the compiler
additionally carries its `is_msvc` flag, and the variant may be absent. -/
structure Axes where
  system : String
  architecture : String
  compiler : String
  compiler_is_msvc : Bool
  buildtype : String
  variant : Option Variant
deriving DecidableEq, Repr

/-- Embedding of `Build._cat` from `src/src/c4/cmany/build.py`: the system,
architecture, compiler and buildtype identities joined by the separator, with
the variant appended only when it is present, has a non-empty name and that
name is not the literal `"none"`. -/
def Build.cat (sep : String) (b : Axes) : String :=
  let s := b.system ++ sep ++ b.architecture ++ sep ++ b.compiler ++ sep ++ b.buildtype
  match b.variant with
  | some v => if v.name ≠ "" ∧ v.name ≠ "none" then s ++ sep ++ v.name else s
  | none => s

/-- The `tag` field computed by `Build._set_paths`: `self.tag = self._cat('-')`. -/
def Build.tag (b : Axes) : String := Build.cat "-" b

/-- The `buildtag` field computed by `Build._set_paths`:
`self.buildtag = self.tag` (the build-directory tag is the same string as the
display tag in the cmany source). -/
def Build.buildtag (b : Axes) : String := Build.tag b

/-- The `installtag` field computed by `Build._set_paths`:
`self.installtag = self.tag`. -/
def Build.installtag (b : Axes) : String := Build.tag b

/-- Embedding of the legacy `Build._cat(sep, for_build_dir)` from
`src/c4/pycmake/pycmake.py`: an MSVC compiler combined with
`for_build_dir=True` drops the buildtype component, and a present variant is
always appended (no name check). -/
def pycmakeCat (sep : String) (for_build_dir : Bool) (b : Axes) : String :=
  let s :=
    if b.compiler_is_msvc ∧ for_build_dir then
      b.system ++ sep ++ b.architecture ++ sep ++ b.compiler
    else
      b.system ++ sep ++ b.architecture ++ sep ++ b.compiler ++ sep ++ b.buildtype
  match b.variant with
  | some v => s ++ sep ++ v.name
  | none => s

/-- The variant suffix the cmany `Build._cat` appends to the dash-joined
axis identities. -/
def cmanyVariantSfx (b : Axes) : String :=
  match b.variant with
  | some v => if v.name ≠ "" ∧ v.name ≠ "none" then "-" ++ v.name else ""
  | none => ""

/-- The variant suffix the legacy pycmake `Build._cat` appends. -/
def pycmakeVariantSfx (b : Axes) : String :=
  match b.variant with
  | some v => "-" ++ v.name
  | none => ""

/-- The slice of the filesystem a single build directory contributes to the
lifecycle state machine: existence of the directory, the three sentinel
files inside it (`cmany_configure.done`, `cmany_build.done` — which records
the last command — and `cmany_deps.done`), the persisted `CMakeCache.txt`
lines when present, and the generated preload file. -/
structure DirFs where
  dirExists : Bool
  configureDone : Bool
  buildDone : Option String
  depsDone : Bool
  cachefile : Option (List String)
  preloadWritten : Bool
deriving DecidableEq, Repr

/-- A build directory that does not exist yet. -/
def DirFs.fresh : DirFs :=
  { dirExists := false, configureDone := false, buildDone := none,
    depsDone := false, cachefile := none, preloadWritten := false }

/-- The runtime state of one `Build`: its directory slice of the filesystem
plus the in-memory configuration cache `varcache`. -/
structure LifeSt where
  fs : DirFs
  vc : CMakeCache
deriving DecidableEq, Repr

/-- Existence of the persisted cache file `self.cachefile`
(`os.path.exists` on a path inside the build directory: true only when the
directory itself exists and the file is present). -/
def cacheFileOnDisk (fs : DirFs) : Bool :=
  fs.dirExists && fs.cachefile.isSome

/-- Embedding of `Build.needs_cache_regeneration`: the on-disk cache file
exists and the in-memory cache is dirty. -/
def needsCacheRegeneration (st : LifeSt) : Bool :=
  cacheFileOnDisk st.fs && st.vc.dirty

/-- Embedding of `Build.needs_configure`: true when the build directory is
absent, the configure-done sentinel is absent, or cache regeneration is
needed. -/
def needsConfigure (st : LifeSt) : Bool :=
  if !st.fs.dirExists then true
  else if !st.fs.configureDone then true
  else needsCacheRegeneration st

/-- Embedding of `Build.needs_build`: true when the build directory is
absent, the build-done sentinel is absent, or cache regeneration is
needed. -/
def needsBuild (st : LifeSt) : Bool :=
  if !st.fs.dirExists then true
  else if !st.fs.buildDone.isSome then true
  else needsCacheRegeneration st

/-- Embedding of `Build.create_dir`. -/
def createDir (fs : DirFs) : DirFs := { fs with dirExists := true }

/-- Merges the directory state returned by `CMakeCache.commit` back into the
build directory's filesystem slice. -/
def applyDir (fs : DirFs) (d : Option CacheDir) : DirFs :=
  match d with
  | none => fs
  | some dd => { fs with dirExists := dd.dirExists, cachefile := dd.cachefile }

/-- The external commands a lifecycle step hands to `util.runsyscmd`: the
cmake configure invocation, or one `generator.cmd([t])` build invocation for
a single target. -/
inductive Cmd where
  | configureCmd : Cmd
  | targetCmd : String → Cmd
deriving DecidableEq, Repr

/-- Embedding of `Build.configure` for a build with no dependency source and
conan integration disabled (dependency handling then reduces to writing the
`cmany_deps.done` sentinel).  The steps mirror the source order: create the
directory, write the preload file, handle dependencies, commit the dirty
variables when cache regeneration is needed, run the external configure
command, and write the configure-done sentinel.

Modelled from the spec: the filesystem effect of the external `cmake`
child process (invoked through the missing `util.runsyscmd`) is the
parameter `ext` — `some lines` means the tool (re)generates the persisted
`CMakeCache.txt` with those lines, as §6 of the spec describes for the
"persisted configuration cache file"; `none` means it leaves the tracked
state unchanged. -/
def Build.configure (ext : Option (List String)) (st : LifeSt) :
    LifeSt × List Cmd :=
  let fs := createDir st.fs
  let fs := { fs with preloadWritten := true }
  let fs := { fs with depsDone := true }
  let st1 : LifeSt := { fs := fs, vc := st.vc }
  let vcfs :=
    if needsCacheRegeneration st1 then
      let r := st.vc.commit (some { dirExists := fs.dirExists,
                                    cachefile := fs.cachefile })
      (r.1, applyDir fs r.2.1)
    else (st.vc, fs)
  let vc := vcfs.1
  let fs := vcfs.2
  let fs :=
    match ext with
    | some lines => { fs with cachefile := some lines }
    | none => fs
  let fs := { fs with configureDone := true }
  ({ fs := fs, vc := vc }, [Cmd.configureCmd])

/-- Embedding of `Build.build` for a build with no dependency source and
conan disabled: create the directory, configure when `needs_configure()`
holds, re-run dependency handling, default an empty target list to
`["ALL_BUILD"]` for an MSVC compiler and `["all"]` otherwise, invoke the
external tool once per target in order, and write the build-done sentinel
recording the last command.  The returned list is the sequence of external
invocations. -/
def Build.build (is_msvc : Bool) (ext : Option (List String))
    (targets : List String) (st : LifeSt) : LifeSt × List Cmd :=
  let fs := createDir st.fs
  let st : LifeSt := { fs := fs, vc := st.vc }
  let r := if needsConfigure st then Build.configure ext st else (st, [])
  let st := r.1
  let st : LifeSt := { st with fs := { st.fs with depsDone := true } }
  let tgts :=
    if targets.isEmpty then (if is_msvc then ["ALL_BUILD"] else ["all"])
    else targets
  let cmds := r.2 ++ tgts.map Cmd.targetCmd
  let fs := { st.fs with buildDone := some (tgts.getLastD "") }
  ({ fs := fs, vc := st.vc }, cmds)

/-- Outcome of feeding one raw configuration-variable string to
`Build._gather_cmake_vars`: the variable is stored, or the Python call
raises.  `typeError` is the `TypeError` raised by the two-positional-argument
call `self.varcache.setvar(nspl[0], vval, from_input=True)` — the signature
`setvar(self, name, val, vartype, **kwargs)` has no default for `vartype` —
and `parseError` is the explicit
`Exception('could not parse variable value: ' + v)`. -/
inductive GatherResult where
  | ok : CMakeCache → GatherResult
  | typeError : GatherResult
  | parseError : String → GatherResult
deriving DecidableEq, Repr

/-- Embedding of the per-string body of `Build._gather_cmake_vars`: split on
`=` (the value is the remaining pieces joined with the EMPTY string, exactly
`''.join(spl[1:])`), split the name part on `:`, then dispatch on the number
of name pieces. -/
def gatherOneVar (c : CMakeCache) (v : String) : GatherResult :=
  let spl := strSplitOnChar '=' v
  let vval := if spl.length > 1 then String.join (spl.drop 1) else ""
  match strSplitOnChar ':' (spl.headD "") with
  | [_] => GatherResult.typeError
  | [n, t] => GatherResult.ok (c.setvar n vval t false (some true)).1
  | _ => GatherResult.parseError v

/-- The configuration of a parent build relevant to `Build.handle_deps`:
its own install directory, the dependency source path (`deps`), the
dependency install prefix (`deps_prefix` in the source), the compiler's
MSVC flag (used for the default build target), and the platform flag the
path setter `p` consults. -/
structure DepBuild where
  installdir : String
  deps : Option String
  deps_pfx : String
  is_msvc : Bool
  windows : Bool
deriving DecidableEq, Repr

/-- The joint state `handle_deps` operates on: the parent build directory's
filesystem slice, the nested `cmany_deps-build` directory's slice, and the
configuration cache — a SINGLE cache, because `copy.copy(self)` makes the
dependency copy share the parent's `varcache` object. -/
structure DepSt where
  parentFs : DirFs
  dupFs : DirFs
  vc : CMakeCache
deriving DecidableEq, Repr

/-- Cache-regeneration test as evaluated by the dependency copy:
`os.path.exists(self.cachefile)` on the copy consults the PARENT's
`CMakeCache.txt` path (the copy's `cachefile` attribute was not recomputed
after `builddir` was reassigned), abbreviated here by the boolean `pc`
passed in by `handle_deps`. -/
def dupNeedsCacheRegen (pc : Bool) (vc : CMakeCache) : Bool :=
  pc && vc.dirty

/-- The dependency copy's `needs_configure()`: directory and sentinel checks
go against the nested build directory, the cache-file check against the
parent's cache file (see `dupNeedsCacheRegen`). -/
def dupNeedsConfigure (pc : Bool) (fs : DirFs) (vc : CMakeCache) : Bool :=
  !fs.dirExists || !fs.configureDone || dupNeedsCacheRegen pc vc

/-- The dependency copy's `needs_build()`. -/
def dupNeedsBuild (pc : Bool) (fs : DirFs) (vc : CMakeCache) : Bool :=
  !fs.dirExists || !fs.buildDone.isSome || dupNeedsCacheRegen pc vc

/-- `configure()` as executed by the dependency copy: the copy's `deps` was
cleared, so its own dependency handling takes the no-dependency branch
(conan disabled) and just writes the nested `cmany_deps.done` sentinel;
`varcache.commit(self.builddir)` targets the NESTED directory while the
regeneration test consulted the parent's cache file.  `ext` is the external
tool's effect on the nested directory's `CMakeCache.txt`, as in
`Build.configure`. -/
def dupConfigure (pc : Bool) (ext : Option (List String)) (fs : DirFs)
    (vc : CMakeCache) : DirFs × CMakeCache :=
  let fs := { fs with dirExists := true, preloadWritten := true }
  let fs := { fs with depsDone := true }
  let vcfs :=
    if dupNeedsCacheRegen pc vc then
      let r := vc.commit (some { dirExists := fs.dirExists,
                                 cachefile := fs.cachefile })
      (r.1, applyDir fs r.2.1)
    else (vc, fs)
  let fs :=
    match ext with
    | some lines => { vcfs.2 with cachefile := some lines }
    | none => vcfs.2
  ({ fs with configureDone := true }, vcfs.1)

/-- `build()` as executed by the dependency copy (called with no targets, so
the default single target is used). -/
def dupBuild (pc is_msvc : Bool) (ext : Option (List String)) (fs : DirFs)
    (vc : CMakeCache) : DirFs × CMakeCache :=
  let fs := { fs with dirExists := true }
  let r :=
    if dupNeedsConfigure pc fs vc then dupConfigure pc ext fs vc
    else (fs, vc)
  let fs := { r.1 with depsDone := true }
  let tgts := if is_msvc then ["ALL_BUILD"] else ["all"]
  ({ fs with buildDone := some (tgts.getLastD "") }, r.2)

/-- `install()` as executed by the dependency copy: build first when needed,
then run the external install command.  The second component reports whether
that external command succeeded (`installFails` makes it fail); the command
itself has no tracked filesystem effect, so the state component is the same
either way — which is what lets `handle_deps` swallow the failure. -/
def dupInstall (pc is_msvc installFails : Bool) (ext : Option (List String))
    (fs : DirFs) (vc : CMakeCache) : (DirFs × CMakeCache) × Bool :=
  let fs := { fs with dirExists := true }
  let r :=
    if dupNeedsBuild pc fs vc then dupBuild pc is_msvc ext fs vc
    else (fs, vc)
  (r, !installFails)

/-- Embedding of `Build.handle_deps` (conan integration disabled): return
immediately when the `cmany_deps.done` sentinel exists; with no dependency
source just write the sentinel; otherwise run configure, build and
best-effort install on the shallow copy (`try: dup.install() except: pass` —
the result of `dupInstall`'s success flag is discarded), set the parent's
`CMAKE_PREFIX_PATH` cache variable to the parent's own install directory via
the path setter `p`, and write the parent's sentinel. -/
def Build.handleDeps (b : DepBuild) (installFails : Bool)
    (ext : Option (List String)) (st : DepSt) : DepSt :=
  if st.parentFs.depsDone then st
  else
    match b.deps with
    | none => { st with parentFs := { st.parentFs with depsDone := true } }
    | some _ =>
      let pc := cacheFileOnDisk st.parentFs
      let r1 := dupConfigure pc ext st.dupFs st.vc
      let r2 := dupBuild pc b.is_msvc ext r1.1 r1.2
      let r3 := dupInstall pc b.is_msvc installFails ext r2.1 r2.2
      let vc := (CMakeCache.pset r3.1.2 b.windows "CMAKE_PREFIX_PATH"
                  b.installdir false none).1
      { parentFs := { st.parentFs with depsDone := true },
        dupFs := r3.1.1, vc := vc }

/-- The attributes of a `Build` object relevant to the shallow-copy
semantics of `handle_deps`: the path attributes set by `__init__` and
`_set_paths`, the dependency pointers, and — modelling Python object
identity — numeric references to the mutable `varcache` and `flags`
containers that `copy.copy` copies by reference. -/
structure BuildObj where
  projdir : String
  tag : String
  builddir : String
  installdir : String
  preload_file : String
  cachefile : String
  deps : Option String
  deps_pfx : String
  varcacheRef : Nat
  flagsRef : Nat
deriving DecidableEq, Repr

/-- Embedding of `Build._set_paths`: the tag names the build directory under
the build root and the install directory under the install root, and the
preload file and persisted cache file live inside the build directory. -/
def BuildObj.set_paths (b : BuildObj) (buildroot installroot tagStr : String) :
    BuildObj :=
  { b with tag := tagStr,
           builddir := pathJoin buildroot tagStr,
           installdir := pathJoin installroot tagStr,
           preload_file := pathJoin (pathJoin buildroot tagStr) "cmany_preload.cmake",
           cachefile := pathJoin (pathJoin buildroot tagStr) "CMakeCache.txt" }

/-- The shallow copy built at the top of `Build.handle_deps`:
`dup = copy.copy(self)` (all attributes, including the `varcache` and
`flags` references, are copied as-is) followed by the explicit field
mutations of the source — `builddir` moves to the nested
`cmany_deps-build` subdirectory, `installdir` becomes the dependency
prefix, `projdir` becomes the dependency source, `preload_file` is
`os.path.join(self.builddir, self.preload_file)` (a no-op for the absolute
`preload_file`), and `deps` is cleared.  `_set_paths` is NOT re-run, so
`cachefile` keeps the parent's value. -/
def BuildObj.mkDup (b : BuildObj) : BuildObj :=
  { b with builddir := pathJoin b.builddir "cmany_deps-build",
           installdir := b.deps_pfx,
           projdir := (b.deps).getD b.projdir,
           preload_file := pathJoin b.builddir b.preload_file,
           deps := none }

/-- One operation of the cache-mutation language of claim C5: the raw
`setvar`, each typed setter, or a `commit` against some on-disk state. -/
inductive CacheOp where
  | setv : String → String → String → Bool → Option Bool → CacheOp
  | setb : String → String → Bool → Option Bool → CacheOp
  | sets : String → String → Bool → Option Bool → CacheOp
  | setp : Bool → String → String → Bool → Option Bool → CacheOp
  | setf : Bool → String → String → Bool → Option Bool → CacheOp
  | seti : String → String → Bool → Option Bool → CacheOp
  | docommit : Option CacheDir → CacheOp
deriving DecidableEq, Repr

/-- Interpretation of one `CacheOp` on a cache. -/
def applyOp (c : CMakeCache) (op : CacheOp) : CMakeCache :=
  match op with
  | CacheOp.setv n v t fd fi => (c.setvar n v t fd fi).1
  | CacheOp.setb n v fd fi => (c.bset n v fd fi).1
  | CacheOp.sets n v fd fi => (c.sset n v fd fi).1
  | CacheOp.setp w n v fd fi => (c.pset w n v fd fi).1
  | CacheOp.setf w n v fd fi => (c.fset w n v fd fi).1
  | CacheOp.seti n v fd fi => (c.iset n v fd fi).1
  | CacheOp.docommit bd => (c.commit bd).1

/-- Interpretation of a sequence of cache operations. -/
def applyOps (ops : List CacheOp) (c : CMakeCache) : CMakeCache :=
  ops.foldl applyOp c

/-- The aggregate-dirty invariant of claim C5: the cache's `dirty` flag
equals the disjunction of the variables' dirty flags. -/
def dirtyInv (c : CMakeCache) : Prop :=
  c.dirty = c.vars.any (fun v => v.dirty)

theorem strDataAppend (a b : String) : (a ++ b).data = a.data ++ b.data := by
  rcases a with ⟨la⟩
  rcases b with ⟨lb⟩
  rfl

theorem str_append_empty (a : String) : a ++ "" = a := by
  rcases a with ⟨la⟩
  exact congrArg String.mk (List.append_nil la)

theorem str_append_ne_self (s t : String) (h : t.data ≠ []) : s ++ t ≠ s := by
  intro he
  have hd := congrArg String.data he
  rw [strDataAppend] at hd
  have hlen := congrArg List.length hd
  rw [List.length_append] at hlen
  have h0 : t.data.length = 0 := by omega
  exact h (List.length_eq_zero.mp h0)

theorem str_append_assoc (a b c : String) : (a ++ b) ++ c = a ++ (b ++ c) := by
  rcases a with ⟨la⟩
  rcases b with ⟨lb⟩
  rcases c with ⟨lc⟩
  exact congrArg String.mk (List.append_assoc la lb lc)

/-- A concrete cmany build with an IDE-multi-config (MSVC) compiler, the
input refuting claim C1 on the cmany source. -/
def mexAxes : Axes :=
  { system := "windows", architecture := "x86", compiler := "vs2015",
    compiler_is_msvc := true, buildtype := "Release", variant := none }

/-- Claim C1, counterexample: for the cmany `Build`, an MSVC compiler does
NOT make the build-directory tag omit the BuildType component — `buildtag`
is the same string as the full tag and still ends in `-Release`, so it is
not the three-component join the claim requires. -/
theorem c1_counterexample :
    Build.buildtag mexAxes = "windows-x86-vs2015-Release"
    ∧ ¬ Build.buildtag mexAxes = "windows-x86-vs2015" := by
  exact ⟨by decide, by decide⟩

/-- Claim C1, amended: in the cmany `Build` the build-directory tag equals
the display tag and always contains the BuildType component, for MSVC and
non-MSVC compilers alike; the claimed behavior — BuildType omitted from the
build-directory tag but kept in the display tag for an IDE-multi-config
compiler, and present in both for other compilers — is exactly what the
legacy pycmake `Build._cat(sep, for_build_dir)` computes. -/
theorem c1_amended_tags (b : Axes) :
    Build.buildtag b = Build.tag b
    ∧ Build.tag b =
        (b.system ++ "-" ++ b.architecture ++ "-" ++ b.compiler ++ "-" ++ b.buildtype)
          ++ cmanyVariantSfx b
    ∧ (b.compiler_is_msvc = true →
        pycmakeCat "-" true b =
          (b.system ++ "-" ++ b.architecture ++ "-" ++ b.compiler) ++ pycmakeVariantSfx b)
    ∧ pycmakeCat "-" false b =
        (b.system ++ "-" ++ b.architecture ++ "-" ++ b.compiler ++ "-" ++ b.buildtype)
          ++ pycmakeVariantSfx b
    ∧ (b.compiler_is_msvc = false →
        pycmakeCat "-" true b =
          (b.system ++ "-" ++ b.architecture ++ "-" ++ b.compiler ++ "-" ++ b.buildtype)
            ++ pycmakeVariantSfx b) := by
  rcases b with ⟨sys, arch, comp, msvc, bt, var⟩
  refine ⟨rfl, ?_, ?_, ?_, ?_⟩
  · cases var with
    | none => simp [Build.tag, Build.cat, cmanyVariantSfx, str_append_empty]
    | some v =>
      by_cases hn : v.name ≠ "" ∧ v.name ≠ "none"
      · simp [Build.tag, Build.cat, cmanyVariantSfx, hn, str_append_assoc]
      · simp [Build.tag, Build.cat, cmanyVariantSfx, hn, str_append_empty]
  · intro hm
    dsimp only at hm
    subst hm
    cases var with
    | none => simp [pycmakeCat, pycmakeVariantSfx, str_append_empty]
    | some v => simp [pycmakeCat, pycmakeVariantSfx, str_append_assoc]
  · cases var with
    | none => simp [pycmakeCat, pycmakeVariantSfx, str_append_empty]
    | some v => simp [pycmakeCat, pycmakeVariantSfx, str_append_assoc]
  · intro hm
    dsimp only at hm
    subst hm
    cases var with
    | none => simp [pycmakeCat, pycmakeVariantSfx, str_append_empty]
    | some v => simp [pycmakeCat, pycmakeVariantSfx, str_append_assoc]

/-- Witness for `c1_amended_tags` at the MSVC input `mexAxes`. -/
theorem c1_amended_witness :
    Build.buildtag mexAxes = Build.tag mexAxes
    ∧ pycmakeCat "-" true mexAxes = "windows-x86-vs2015"
    ∧ pycmakeCat "-" false mexAxes = "windows-x86-vs2015-Release" := by
  have h := c1_amended_tags mexAxes
  refine ⟨h.1, ?_, ?_⟩
  · rw [h.2.2.1 (by decide)]
    decide
  · rw [h.2.2.2.1]
    decide

/-- Claim C2: for a non-IDE compiler the cmany `Build` tag is the dash-join
of the system, architecture, compiler and buildtype identities, with the
variant identity appended as a fifth component exactly when the variant is
present with a non-empty name different from the literal `"none"`; and the
tag is a function of those five identities alone (any two axis tuples that
agree on them — regardless of the MSVC flag — produce the same tag), hence
deterministic and stable across repeated construction. -/
theorem c2_tag_characterization (b : Axes) (hm : b.compiler_is_msvc = false) :
    (b.variant = none →
      Build.tag b = b.system ++ "-" ++ b.architecture ++ "-" ++ b.compiler ++ "-" ++ b.buildtype)
    ∧ (∀ v : Variant, b.variant = some v → v.name ≠ "" → v.name ≠ "none" →
      Build.tag b =
        b.system ++ "-" ++ b.architecture ++ "-" ++ b.compiler ++ "-" ++ b.buildtype
          ++ "-" ++ v.name)
    ∧ (∀ v : Variant, b.variant = some v → v.name = "" ∨ v.name = "none" →
      Build.tag b = b.system ++ "-" ++ b.architecture ++ "-" ++ b.compiler ++ "-" ++ b.buildtype)
    ∧ (∀ b2 : Axes, b2.system = b.system → b2.architecture = b.architecture →
      b2.compiler = b.compiler → b2.buildtype = b.buildtype → b2.variant = b.variant →
      Build.tag b2 = Build.tag b) := by
  refine ⟨?_, ?_, ?_, ?_⟩
  · intro hv
    rcases b with ⟨sys, arch, comp, msvc, bt, var⟩
    dsimp only at hv
    subst hv
    simp [Build.tag, Build.cat]
  · intro v hv h1 h2
    rcases b with ⟨sys, arch, comp, msvc, bt, var⟩
    dsimp only at hv
    subst hv
    simp [Build.tag, Build.cat, h1, h2]
  · intro v hv h12
    rcases b with ⟨sys, arch, comp, msvc, bt, var⟩
    dsimp only at hv
    subst hv
    rcases h12 with h | h <;> simp [Build.tag, Build.cat, h]
  · intro b2 h1 h2 h3 h4 h5
    rcases b with ⟨sys, arch, comp, msvc, bt, var⟩
    rcases b2 with ⟨sys2, arch2, comp2, msvc2, bt2, var2⟩
    dsimp only at h1 h2 h3 h4 h5
    subst h1; subst h2; subst h3; subst h4; subst h5
    simp [Build.tag, Build.cat]

/-- The end-to-end example of the spec: a resolved gcc on 64-bit linux, no
variant. -/
def exGcc : Axes :=
  { system := "linux", architecture := "x86_64", compiler := "gcc6.2",
    compiler_is_msvc := false, buildtype := "Release", variant := none }

/-- The same build point with an `asan` variant. -/
def exGccAsan : Axes := { exGcc with variant := some { name := "asan" } }

/-- The same build point with a variant literally named `none`. -/
def exGccNone : Axes := { exGcc with variant := some { name := "none" } }

/-- Witness for `c2_tag_characterization` at the spec's end-to-end inputs. -/
theorem c2_tag_witness :
    Build.tag exGcc = "linux-x86_64-gcc6.2-Release"
    ∧ Build.tag exGccAsan = "linux-x86_64-gcc6.2-Release-asan"
    ∧ Build.tag exGccNone = "linux-x86_64-gcc6.2-Release" := by
  have h1 := c2_tag_characterization exGcc (by decide)
  have h2 := c2_tag_characterization exGccAsan (by decide)
  have h3 := c2_tag_characterization exGccNone (by decide)
  refine ⟨?_, ?_, ?_⟩
  · rw [h1.1 rfl]
    decide
  · rw [h2.2.1 { name := "asan" } rfl (by decide) (by decide)]
    decide
  · rw [h3.2.2.1 { name := "none" } rfl (Or.inr rfl)]
    decide

/-- Claim C9, evaluation of `Build._gather_cmake_vars` on concrete raw
variable strings: a `NAME:TYPE=VALUE` string is stored with that type, and a
name part with more than two colon-separated pieces raises the descriptive
parse exception — but a typeless `NAME=VALUE` string is NOT accepted: the
two-positional-argument call `setvar(nspl[0], vval, from_input=True)` raises
a `TypeError` because `CMakeCache.setvar(self, name, val, vartype, **kwargs)`
gives `vartype` no default (its own `assert vartype is not None` shows such
calls were intended to work).  A string lacking `=` altogether either hits
the same `TypeError` (no colon in it) or is silently stored with an empty
value (exactly one colon), instead of raising a descriptive error. -/
theorem c9_gather_eval :
    gatherOneVar emptyCache "FOO:BOOL=ON" =
      GatherResult.ok
        { vars := [{ name := "FOO", val := "ON", vartype := "BOOL",
                     dirty := true, from_input := false }], dirty := true }
    ∧ gatherOneVar emptyCache "A:B:C=v" = GatherResult.parseError "A:B:C=v"
    ∧ gatherOneVar emptyCache "FOO=bar" = GatherResult.typeError
    ∧ gatherOneVar emptyCache "NOEQUALS" = GatherResult.typeError
    ∧ gatherOneVar emptyCache "FOO:BOOL" =
      GatherResult.ok
        { vars := [{ name := "FOO", val := "", vartype := "BOOL",
                     dirty := true, from_input := false }], dirty := true } := by
  exact ⟨by decide, by decide, by decide, by decide, by decide⟩

/-- Claim C10: the dependency sub-build copy shares the parent's `varcache`
and `flags` references, keeps the parent's `cachefile` path (path
recomputation is not re-run) even though its `builddir` is moved into the
nested `cmany_deps-build` subdirectory, so its `cachefile` is not the one
naming its own build directory; and a cache written through the copy's
reference is read back through the parent's reference. -/
theorem c10_shallow_copy (b : BuildObj)
    (hcf : b.cachefile = pathJoin b.builddir "CMakeCache.txt") :
    (BuildObj.mkDup b).varcacheRef = b.varcacheRef
    ∧ (BuildObj.mkDup b).flagsRef = b.flagsRef
    ∧ (BuildObj.mkDup b).cachefile = b.cachefile
    ∧ (BuildObj.mkDup b).builddir = pathJoin b.builddir "cmany_deps-build"
    ∧ (BuildObj.mkDup b).builddir ≠ b.builddir
    ∧ (BuildObj.mkDup b).cachefile ≠ pathJoin (BuildObj.mkDup b).builddir "CMakeCache.txt"
    ∧ (∀ (store : Nat → CMakeCache) (c : CMakeCache),
        (fun r => if r = (BuildObj.mkDup b).varcacheRef then c else store r) b.varcacheRef = c) := by
  refine ⟨rfl, rfl, rfl, rfl, ?_, ?_, ?_⟩
  · show pathJoin b.builddir "cmany_deps-build" ≠ b.builddir
    unfold pathJoin
    rw [if_neg (by decide), str_append_assoc]
    exact str_append_ne_self b.builddir ("/" ++ "cmany_deps-build") (by decide)
  · show b.cachefile ≠ pathJoin (pathJoin b.builddir "cmany_deps-build") "CMakeCache.txt"
    rw [hcf]
    unfold pathJoin
    rw [if_neg (by decide), if_neg (by decide), if_neg (by decide)]
    intro he
    have hd := congrArg String.data he
    rw [strDataAppend, strDataAppend, strDataAppend, strDataAppend,
        strDataAppend, strDataAppend] at hd
    have hlen := congrArg List.length hd
    simp only [List.length_append] at hlen
    have h1 : ("/" : String).data.length = 1 := by decide
    have h2 : ("CMakeCache.txt" : String).data.length = 14 := by decide
    have h3 : ("cmany_deps-build" : String).data.length = 16 := by decide
    rw [h1, h2, h3] at hlen
    omega
  · intro store c
    have hr : (BuildObj.mkDup b).varcacheRef = b.varcacheRef := rfl
    rw [hr]
    simp

/-- A concrete parent build, constructed through `_set_paths`, for the
witness of `c10_shallow_copy`. -/
def c10Parent : BuildObj :=
  BuildObj.set_paths
    { projdir := "/src/proj", tag := "", builddir := "", installdir := "",
      preload_file := "", cachefile := "", deps := some "/src/proj/deps",
      deps_pfx := "/build/t/cmany_deps-install", varcacheRef := 0, flagsRef := 1 }
    "/build" "/install" "linux-x86_64-gcc6.2-Release"

/-- Witness for `c10_shallow_copy` at the concrete parent `c10Parent`. -/
theorem c10_shallow_copy_witness :
    (BuildObj.mkDup c10Parent).varcacheRef = c10Parent.varcacheRef
    ∧ (BuildObj.mkDup c10Parent).flagsRef = c10Parent.flagsRef
    ∧ (BuildObj.mkDup c10Parent).cachefile = c10Parent.cachefile
    ∧ (BuildObj.mkDup c10Parent).builddir = pathJoin c10Parent.builddir "cmany_deps-build"
    ∧ (BuildObj.mkDup c10Parent).builddir ≠ c10Parent.builddir
    ∧ (BuildObj.mkDup c10Parent).cachefile
        ≠ pathJoin (BuildObj.mkDup c10Parent).builddir "CMakeCache.txt"
    ∧ (fun r => if r = (BuildObj.mkDup c10Parent).varcacheRef then emptyCache
                else CMakeCache.mk [] true) c10Parent.varcacheRef = emptyCache := by
  have h := c10_shallow_copy c10Parent (by decide)
  exact ⟨h.1, h.2.1, h.2.2.1, h.2.2.2.1, h.2.2.2.2.1, h.2.2.2.2.2.1,
         h.2.2.2.2.2.2 (fun _ => CMakeCache.mk [] true) emptyCache⟩


theorem reset_name (u : Var) (v t : String) (fd : Bool) (fi : Option Bool) :
    (u.reset v t fd fi).1.name = u.name := by
  by_cases hc : v ≠ u.val ∨ t ≠ u.vartype
  · rcases fi with _ | fi <;> simp [Var.reset, hc]
  · by_cases hfd : fd = true
    · rcases fi with _ | fi <;> simp [Var.reset, hc, hfd]
    · rcases fi with _ | fi <;> simp [Var.reset, hc, hfd]

theorem reset_val_vartype (u : Var) (v t : String) (fd : Bool) (fi : Option Bool) :
    (u.reset v t fd fi).1.val = v ∧ (u.reset v t fd fi).1.vartype = t := by
  by_cases hc : v ≠ u.val ∨ t ≠ u.vartype
  · rcases fi with _ | fi <;> simp [Var.reset, hc]
  · push_neg at hc
    by_cases hfd : fd = true
    · rcases fi with _ | fi <;> simp [Var.reset, hc.1.symm, hc.2.symm, hfd]
    · rcases fi with _ | fi <;> simp [Var.reset, hc.1.symm, hc.2.symm, hfd]

theorem reset_dirty_of_snd_true (u : Var) (v t : String) (fd : Bool) (fi : Option Bool)
    (h : (u.reset v t fd fi).2 = true) : (u.reset v t fd fi).1.dirty = true := by
  by_cases hc : v ≠ u.val ∨ t ≠ u.vartype
  · rcases fi with _ | fi <;> simp [Var.reset, hc]
  · by_cases hfd : fd = true
    · rcases fi with _ | fi <;> simp [Var.reset, hc, hfd]
    · rcases fi with _ | fi <;> simp [Var.reset, hc, hfd] at h

theorem reset_of_snd_false (u : Var) (v t : String) (fd : Bool) (fi : Option Bool)
    (h : (u.reset v t fd fi).2 = false) :
    (u.reset v t fd fi).1.dirty = u.dirty ∧ u.val = v ∧ u.vartype = t := by
  by_cases hc : v ≠ u.val ∨ t ≠ u.vartype
  · rcases fi with _ | fi <;> simp [Var.reset, hc] at h
  · push_neg at hc
    by_cases hfd : fd = true
    · rcases fi with _ | fi <;> simp [Var.reset, hc.1.symm, hc.2.symm, hfd] at h
    · rcases fi with _ | fi <;> simp [Var.reset, hc.1.symm, hc.2.symm, hfd]

theorem lookupVar_updateVar_of_found (vs : List Var) (n : String) (f : Var → Var) (v : Var)
    (hv : lookupVar vs n = some v) (hname : (f v).name = v.name) :
    lookupVar (updateVar vs n f) n = some (f v) := by
  induction vs with
  | nil => simp [lookupVar] at hv
  | cons u rest ih =>
    by_cases h : u.name = n
    · simp only [lookupVar, if_pos h] at hv
      injection hv with hv
      subst hv
      simp [updateVar, lookupVar, h, hname ▸ h]
    · simp only [lookupVar, if_neg h] at hv
      simp only [updateVar, if_neg h, lookupVar]
      exact ih hv

theorem lookupVar_append_of_none (vs ws : List Var) (n : String)
    (h : lookupVar vs n = none) : lookupVar (vs ++ ws) n = lookupVar ws n := by
  induction vs with
  | nil => rfl
  | cons u rest ih =>
    by_cases hu : u.name = n
    · simp [lookupVar, hu] at h
    · simp only [lookupVar, if_neg hu] at h
      simp only [List.cons_append, lookupVar, if_neg hu]
      exact ih h

theorem setvar_get_self (c : CMakeCache) (n v t : String) (fd : Bool) (fi : Option Bool) :
    ((c.setvar n v t fd fi).1.get n).map Var.val = some v
    ∧ ((c.setvar n v t fd fi).1.get n).map Var.vartype = some t := by
  unfold CMakeCache.setvar
  cases hg : c.get n with
  | some u =>
    dsimp only
    unfold CMakeCache.get at hg ⊢
    rw [lookupVar_updateVar_of_found c.vars n _ u hg (reset_name u v t fd fi)]
    simp [Option.map, (reset_val_vartype u v t fd fi).1, (reset_val_vartype u v t fd fi).2]
  | none =>
    dsimp only
    unfold CMakeCache.get at hg ⊢
    rw [lookupVar_append_of_none c.vars _ n hg]
    simp [lookupVar]

theorem reset_snd_false_of_same (u : Var) (v t : String) (fi : Option Bool)
    (hv : u.val = v) (ht : u.vartype = t) : (u.reset v t false fi).2 = false := by
  rcases fi with _ | fi <;> simp [Var.reset, hv.symm, ht.symm]

theorem reset_snd_true_of_diff (u : Var) (v t : String) (fi : Option Bool)
    (h : v ≠ u.val ∨ t ≠ u.vartype) : (u.reset v t false fi).2 = true := by
  rcases fi with _ | fi <;> simp [Var.reset, h]

/-- Claim C3, the `setvar` dirty-flag contract.  First part: a second
`setvar` with the identical name, value and type (and no force flag) leaves
the variable's dirty flag, the aggregate dirty flag and the rest of the
cache state exactly as the first call left them, and reports no change.
Second part: a `setvar` on an existing variable with a different value or a
different type sets both the variable's dirty flag and the aggregate flag
to `true`.  Third part: a `setvar` for an absent name inserts a fresh entry
that is dirty and raises the aggregate flag. -/
theorem c3_setvar_contract :
    (∀ (c : CMakeCache) (n v t : String) (fd1 : Bool) (fi1 fi2 : Option Bool),
      ((c.setvar n v t fd1 fi1).1.setvar n v t false fi2).2 = false
      ∧ ((c.setvar n v t fd1 fi1).1.setvar n v t false fi2).1.dirty
          = (c.setvar n v t fd1 fi1).1.dirty
      ∧ ((((c.setvar n v t fd1 fi1).1.setvar n v t false fi2).1.get n).map Var.dirty
          = ((c.setvar n v t fd1 fi1).1.get n).map Var.dirty))
    ∧ (∀ (c : CMakeCache) (n v2 t2 : String) (fi : Option Bool) (u : Var),
      c.get n = some u → v2 ≠ u.val ∨ t2 ≠ u.vartype →
      (c.setvar n v2 t2 false fi).1.dirty = true
      ∧ ((c.setvar n v2 t2 false fi).1.get n).map Var.dirty = some true)
    ∧ (∀ (c : CMakeCache) (n v t : String) (fd : Bool) (fi : Option Bool),
      c.get n = none →
      (c.setvar n v t fd fi).1.get n
        = some { name := n, val := v, vartype := t, dirty := true, from_input := false }
      ∧ (c.setvar n v t fd fi).1.dirty = true) := by
  refine ⟨?_, ?_, ?_⟩
  · intro c n v t fd1 fi1 fi2
    set c1 := (c.setvar n v t fd1 fi1).1 with hc1
    have hval := (setvar_get_self c n v t fd1 fi1).1
    have htyp := (setvar_get_self c n v t fd1 fi1).2
    rw [← hc1] at hval htyp
    cases hg : c1.get n with
    | none => rw [hg] at hval; simp [Option.map] at hval
    | some u1 =>
      rw [hg] at hval htyp
      simp only [Option.map] at hval htyp
      injection hval with hval
      injection htyp with htyp
      have hsnd := reset_snd_false_of_same u1 v t fi2 hval htyp
      have hdirty := (reset_of_snd_false u1 v t false fi2 hsnd).1
      unfold CMakeCache.setvar
      rw [hg]
      refine ⟨hsnd, ?_, ?_⟩
      · simp [hsnd]
      · dsimp only
        unfold CMakeCache.get at hg ⊢
        rw [lookupVar_updateVar_of_found c1.vars n _ u1 hg (reset_name u1 v t false fi2)]
        simp [Option.map, hdirty]
  · intro c n v2 t2 fi u hg hdiff
    have hsnd := reset_snd_true_of_diff u v2 t2 fi hdiff
    have hdirty := reset_dirty_of_snd_true u v2 t2 false fi hsnd
    unfold CMakeCache.setvar
    rw [hg]
    refine ⟨?_, ?_⟩
    · simp [hsnd]
    · dsimp only
      unfold CMakeCache.get at hg ⊢
      rw [lookupVar_updateVar_of_found c.vars n _ u hg (reset_name u v2 t2 false fi)]
      simp [Option.map, hdirty]
  · intro c n v t fd fi hg
    unfold CMakeCache.setvar
    rw [hg]
    refine ⟨?_, rfl⟩
    dsimp only
    unfold CMakeCache.get at hg ⊢
    rw [lookupVar_append_of_none c.vars _ n hg]
    simp [lookupVar]

/-- Witness for `c3_setvar_contract` at concrete inputs: a repeated
identical `setvar`, a value change, and an insertion. -/
theorem c3_setvar_witness :
    ((emptyCache.setvar "A" "1" "STRING" false none).1.setvar "A" "1" "STRING" false none).2 = false
    ∧ ((emptyCache.setvar "A" "1" "STRING" false none).1.setvar "A" "1" "STRING" false none).1.dirty
        = (emptyCache.setvar "A" "1" "STRING" false none).1.dirty
    ∧ (((emptyCache.setvar "A" "1" "STRING" false none).1.setvar "A" "1" "STRING" false none).1.get "A").map Var.dirty
        = ((emptyCache.setvar "A" "1" "STRING" false none).1.get "A").map Var.dirty
    ∧ ((emptyCache.setvar "A" "1" "STRING" false none).1.setvar "A" "2" "STRING" false none).1.dirty = true
    ∧ (((emptyCache.setvar "A" "1" "STRING" false none).1.setvar "A" "2" "STRING" false none).1.get "A").map Var.dirty = some true
    ∧ (emptyCache.setvar "B" "x" "BOOL" true (some true)).1.get "B"
        = some { name := "B", val := "x", vartype := "BOOL", dirty := true, from_input := false }
    ∧ (emptyCache.setvar "B" "x" "BOOL" true (some true)).1.dirty = true := by
  have h1 := c3_setvar_contract.1 emptyCache "A" "1" "STRING" false none none
  have h2 := c3_setvar_contract.2.1 (emptyCache.setvar "A" "1" "STRING" false none).1
      "A" "2" "STRING" none
      { name := "A", val := "1", vartype := "STRING", dirty := true, from_input := false }
      (by decide) (Or.inl (by decide))
  have h3 := c3_setvar_contract.2.2 emptyCache "B" "x" "BOOL" true (some true) (by decide)
  exact ⟨h1.1, h1.2.1, h1.2.2, h2.1, h2.2, h3.1, h3.2⟩

theorem substLine_of_no_match (pairs : List (String × String)) (l : String)
    (h : ∀ kv ∈ pairs, strIsPrefix (kv.1 ++ ":") l = false) :
    substLine pairs l = l := by
  induction pairs with
  | nil => rfl
  | cons kv rest ih =>
    have hkv := h kv (List.mem_cons_self kv rest)
    have hrest : ∀ kv2 ∈ rest, strIsPrefix (kv2.1 ++ ":") l = false :=
      fun kv2 hm => h kv2 (List.mem_cons_of_mem kv hm)
    unfold substLine at ih ⊢
    simp only [List.foldl_cons]
    rw [show substOne kv.1 kv.2 l = l by unfold substOne; rw [hkv]; simp]
    exact ih hrest

/-- Claim C4, the `commit` contract.  No-op parts: a `None` build directory,
a cache that is not dirty, an absent directory or an absent persisted cache
file all make `commit` return `false` with no state change.  Write part:
otherwise `commit` maps every file line through the `setcachevars` rewrite
for exactly the dirty variables' name/value pairs, clears every variable's
dirty flag and the aggregate flag, and returns `true`.  Preservation part:
a line which no dirty variable's `name:` prefix matches is kept verbatim by
that rewrite. -/
theorem c4_commit_contract :
    (∀ c : CMakeCache, c.commit none = (c, none, false))
    ∧ (∀ (c : CMakeCache) (d : CacheDir),
        c.dirty = false ∨ d.dirExists = false ∨ d.cachefile = none →
        c.commit (some d) = (c, some d, false))
    ∧ (∀ (c : CMakeCache) (d : CacheDir) (lines : List String),
        c.dirty = true → d.dirExists = true → d.cachefile = some lines →
        c.commit (some d) =
          ({ vars := c.vars.map (fun v => { v with dirty := false }), dirty := false },
           some { dirExists := true,
                  cachefile := some (lines.map (substLine (dirtyPairs c))) },
           true))
    ∧ (∀ (c : CMakeCache) (d : CacheDir) (lines : List String) (l : String),
        c.dirty = true → d.dirExists = true → d.cachefile = some lines →
        l ∈ lines →
        (∀ kv ∈ dirtyPairs c, strIsPrefix (kv.1 ++ ":") l = false) →
        ((c.commit (some d)).2.1 =
            some { dirExists := true,
                   cachefile := some (lines.map (substLine (dirtyPairs c))) })
        ∧ substLine (dirtyPairs c) l = l)
    ∧ (∀ (c : CMakeCache) (d : CacheDir) (lines : List String),
        c.dirty = true → d.dirExists = true → d.cachefile = some lines →
        ((c.commit (some d)).1.vars.all (fun v => !v.dirty)) = true
        ∧ (c.commit (some d)).1.dirty = false) := by
  refine ⟨fun c => rfl, ?_, ?_, ?_, ?_⟩
  · intro c d h
    rcases d with ⟨de, cf⟩
    dsimp only at h
    rcases cf with _ | lines
    · rfl
    · rcases h with h | h | h
      · unfold CMakeCache.commit
        dsimp only
        rw [if_pos (Or.inl h)]
      · unfold CMakeCache.commit
        dsimp only
        rw [if_pos (Or.inr h)]
      · exact absurd h (by simp)
  · intro c d lines hd hde hcf
    rcases d with ⟨de, cf⟩
    dsimp only at hde hcf
    subst hde
    subst hcf
    unfold CMakeCache.commit
    dsimp only
    rw [if_neg (by simp [hd])]
  · intro c d lines l hd hde hcf hmem hnom
    refine ⟨?_, substLine_of_no_match (dirtyPairs c) l hnom⟩
    rcases d with ⟨de, cf⟩
    dsimp only at hde hcf
    subst hde
    subst hcf
    unfold CMakeCache.commit
    dsimp only
    rw [if_neg (by simp [hd])]
  · intro c d lines hd hde hcf
    rcases d with ⟨de, cf⟩
    dsimp only at hde hcf
    subst hde
    subst hcf
    unfold CMakeCache.commit
    dsimp only
    rw [if_neg (by simp [hd])]
    refine ⟨?_, rfl⟩
    dsimp only
    rw [List.all_eq_true]
    intro v hv
    rw [List.mem_map] at hv
    rcases hv with ⟨u, _, hu⟩
    rw [← hu]
    rfl

/-- A concrete dirty cache for the `commit` witness: variable `FOO` changed
to `bar`, variable `OTHER` loaded clean. -/
def c4Cache : CMakeCache :=
  (CMakeCache.load (some ["FOO:STRING=old", "OTHER:BOOL=ON", "# comment"])).setvar
    "FOO" "bar" "STRING" false none |>.1

/-- The on-disk state for the `commit` witness. -/
def c4Dir : CacheDir :=
  { dirExists := true, cachefile := some ["FOO:STRING=old", "OTHER:BOOL=ON", "# comment"] }

/-- Witness for `c4_commit_contract`: the no-op branches at a clean cache
and an absent directory, and the write branch rewriting exactly the dirty
`FOO` line while keeping the `OTHER` and comment lines verbatim. -/
theorem c4_commit_witness :
    emptyCache.commit none = (emptyCache, none, false)
    ∧ emptyCache.commit (some c4Dir) = (emptyCache, some c4Dir, false)
    ∧ c4Cache.commit (some { dirExists := false, cachefile := some [] })
        = (c4Cache, some { dirExists := false, cachefile := some [] }, false)
    ∧ c4Cache.commit (some c4Dir)
        = ({ vars := c4Cache.vars.map (fun v => { v with dirty := false }), dirty := false },
           some { dirExists := true,
                  cachefile := some ((["FOO:STRING=old", "OTHER:BOOL=ON", "# comment"]).map
                    (substLine (dirtyPairs c4Cache))) },
           true)
    ∧ substLine (dirtyPairs c4Cache) "OTHER:BOOL=ON" = "OTHER:BOOL=ON"
    ∧ ((c4Cache.commit (some c4Dir)).1.vars.all (fun v => !v.dirty)) = true
    ∧ (c4Cache.commit (some c4Dir)).1.dirty = false := by
  have h1 := c4_commit_contract.1 emptyCache
  have h2 := c4_commit_contract.2.1 emptyCache c4Dir (Or.inl (by decide))
  have h3 := c4_commit_contract.2.1 c4Cache
      { dirExists := false, cachefile := some [] } (Or.inr (Or.inl rfl))
  have h4 := c4_commit_contract.2.2.1 c4Cache c4Dir
      ["FOO:STRING=old", "OTHER:BOOL=ON", "# comment"] (by decide) rfl rfl
  have h5 := c4_commit_contract.2.2.2.1 c4Cache c4Dir
      ["FOO:STRING=old", "OTHER:BOOL=ON", "# comment"] "OTHER:BOOL=ON"
      (by decide) rfl rfl (by simp) (by decide)
  have h6 := c4_commit_contract.2.2.2.2 c4Cache c4Dir
      ["FOO:STRING=old", "OTHER:BOOL=ON", "# comment"] (by decide) rfl rfl
  exact ⟨h1, h2, h3, h4, h5.2, h6.1, h6.2⟩

theorem any_updateVar_of_lookup (vs : List Var) (n : String) (f : Var → Var)
    (p : Var → Bool) (v : Var) (hv : lookupVar vs n = some v)
    (hp : p (f v) = p v) : (updateVar vs n f).any p = vs.any p := by
  induction vs with
  | nil => simp [lookupVar] at hv
  | cons u rest ih =>
    by_cases h : u.name = n
    · simp only [lookupVar, if_pos h] at hv
      injection hv with hv
      subst hv
      simp [updateVar, h, List.any_cons, hp]
    · simp only [lookupVar, if_neg h] at hv
      simp [updateVar, h, List.any_cons, ih hv]

theorem any_updateVar_true (vs : List Var) (n : String) (f : Var → Var)
    (p : Var → Bool) (v : Var) (hv : lookupVar vs n = some v)
    (hp : p (f v) = true) : (updateVar vs n f).any p = true := by
  induction vs with
  | nil => simp [lookupVar] at hv
  | cons u rest ih =>
    by_cases h : u.name = n
    · simp only [lookupVar, if_pos h] at hv
      injection hv with hv
      subst hv
      simp [updateVar, h, List.any_cons, hp]
    · simp only [lookupVar, if_neg h] at hv
      simp [updateVar, h, List.any_cons, ih hv]

theorem setvar_dirtyInv (c : CMakeCache) (n v t : String) (fd : Bool)
    (fi : Option Bool) (h : dirtyInv c) : dirtyInv (c.setvar n v t fd fi).1 := by
  unfold CMakeCache.setvar
  cases hg : c.get n with
  | none =>
    unfold dirtyInv at h ⊢
    simp [List.any_append, List.any_cons]
  | some u =>
    unfold CMakeCache.get at hg
    unfold dirtyInv at h ⊢
    dsimp only
    cases hsnd : (u.reset v t fd fi).2 with
    | false =>
      have hd := (reset_of_snd_false u v t fd fi hsnd).1
      rw [Bool.or_false, h]
      exact (any_updateVar_of_lookup c.vars n _ _ u hg hd).symm
    | true =>
      have hd := reset_dirty_of_snd_true u v t fd fi hsnd
      rw [Bool.or_true]
      exact (any_updateVar_true c.vars n _ _ u hg hd).symm

theorem commit_dirtyInv (c : CMakeCache) (bd : Option CacheDir)
    (h : dirtyInv c) : dirtyInv (c.commit bd).1 := by
  rcases bd with _ | ⟨de, cf⟩
  · exact h
  · rcases cf with _ | lines
    · exact h
    · unfold CMakeCache.commit
      dsimp only
      by_cases hc : c.dirty = false ∨ de = false
      · rw [if_pos hc]
        exact h
      · rw [if_neg hc]
        unfold dirtyInv
        dsimp only
        rw [List.any_map]
        simp

theorem applyOp_dirtyInv (c : CMakeCache) (op : CacheOp) (h : dirtyInv c) :
    dirtyInv (applyOp c op) := by
  cases op with
  | setv n v t fd fi => exact setvar_dirtyInv c n v t fd fi h
  | setb n v fd fi => exact setvar_dirtyInv c n v "BOOL" fd fi h
  | sets n v fd fi => exact setvar_dirtyInv c n v "STRING" fd fi h
  | setp w n v fd fi => exact setvar_dirtyInv c n _ "PATH" fd fi h
  | setf w n v fd fi => exact setvar_dirtyInv c n _ "FILEPATH" fd fi h
  | seti n v fd fi => exact setvar_dirtyInv c n v "INTERNAL" fd fi h
  | docommit bd => exact commit_dirtyInv c bd h

theorem odictSet_any_false (vs : List Var) (v : Var) (p : Var → Bool)
    (hvs : vs.any p = false) (hv : p v = false) : (odictSet vs v).any p = false := by
  induction vs with
  | nil => simp [odictSet, hv]
  | cons u rest ih =>
    simp only [List.any_cons, Bool.or_eq_false_iff] at hvs
    by_cases h : u.name = v.name
    · simp [odictSet, h, List.any_cons, hv, hvs.2]
    · simp [odictSet, h, List.any_cons, hvs.1, ih hvs.2]

theorem loadvars_clean (cachefile : Option (List String)) :
    (loadvars cachefile).any (fun v => v.dirty) = false := by
  rcases cachefile with _ | lines
  · rfl
  · unfold loadvars
    dsimp only
    have main : ∀ (ls : List String) (acc : List Var),
        acc.any (fun v => v.dirty) = false →
        (ls.foldl
          (fun acc l =>
            match matchCacheEntry (pyStrip l) with
            | none => acc
            | some (n, t, v) =>
              odictSet acc { name := n, val := v, vartype := t,
                             dirty := false, from_input := false }) acc).any
          (fun v => v.dirty) = false := by
      intro ls
      induction ls with
      | nil => intro acc h; exact h
      | cons l rest ih =>
        intro acc h
        simp only [List.foldl_cons]
        rcases hm : matchCacheEntry (pyStrip l) with _ | ⟨n, t, v⟩
        · exact ih acc h
        · exact ih _ (odictSet_any_false acc _ _ h rfl)
    exact main lines [] rfl

/-- Claim C5, the aggregate-dirty invariant: for a cache constructed by
loading a persisted cache file (or starting empty) and then transformed by
any sequence of `setvar`, typed-setter and `commit` operations, the
aggregate `dirty` flag equals the disjunction of the dirty flags of all
variables in the cache. -/
theorem c5_dirty_invariant (cachefile : Option (List String)) (ops : List CacheOp) :
    dirtyInv (applyOps ops (CMakeCache.load cachefile)) := by
  have h0 : dirtyInv (CMakeCache.load cachefile) := by
    unfold dirtyInv CMakeCache.load
    exact (loadvars_clean cachefile).symm
  have main : ∀ (l : List CacheOp) (c : CMakeCache), dirtyInv c →
      dirtyInv (applyOps l c) := by
    intro l
    induction l with
    | nil => intro c h; exact h
    | cons op rest ih =>
      intro c h
      exact ih _ (applyOp_dirtyInv c op h)
  exact main ops _ h0

/-- The in-memory cache of a first-time build: one input variable inserted
by `gather_input_cache_vars`, hence dirty. -/
def c6FreshVc : CMakeCache :=
  (emptyCache.setvar "CMAKE_BUILD_TYPE" "Release" "STRING" false (some true)).1

/-- A fresh first-configure state: the build directory does not exist and
the cache holds the dirty input variable. -/
def c6FreshSt : LifeSt := { fs := DirFs.fresh, vc := c6FreshVc }

/-- The effect of the external tool on a first configure, modelled from the
spec: `cmake` generates the persisted `CMakeCache.txt` in the build
directory. -/
def c6Ext : Option (List String) := some ["CMAKE_BUILD_TYPE:STRING=Release"]

/-- Claim C6, counterexample to its last part: a successful first
`configure()` into a fresh build directory (dirty input variables, no
pre-existing on-disk cache, the external tool generating one) leaves
`needs_configure()` TRUE, not false, although no cache variable changed
after the configure — the dirty variables were never committed because
`needs_cache_regeneration()` was false before the external tool created the
file. -/
theorem c6_counterexample :
    needsConfigure c6FreshSt = true
    ∧ needsConfigure (Build.configure c6Ext c6FreshSt).1 = true
    ∧ ¬ needsConfigure (Build.configure c6Ext c6FreshSt).1 = false := by
  exact ⟨by decide, by decide, by decide⟩

/-- Claim C6, amended.  Part 1: `needs_configure()` is true exactly when the
build directory is absent, the configure-done sentinel is absent, or the
on-disk persisted cache file exists while the in-memory cache is dirty.
Part 2: a fresh (absent) build directory always needs configuring.
Part 3: after a successful `configure()`, `needs_configure()` equals
`dirty-before AND no-on-disk-cache-before AND external-tool-generated-one` —
so it is false whenever the configure committed the dirty variables (an
on-disk cache existed) or the cache was clean or no cache file came into
existence, and true exactly in the uncommitted-first-configure case of the
counterexample. -/
theorem c6_needs_configure_amended :
    (∀ st : LifeSt, needsConfigure st = true ↔
      (st.fs.dirExists = false ∨ st.fs.configureDone = false ∨
        (cacheFileOnDisk st.fs = true ∧ st.vc.dirty = true)))
    ∧ (∀ st : LifeSt, st.fs.dirExists = false → needsConfigure st = true)
    ∧ (∀ (st : LifeSt) (ext : Option (List String)),
        needsConfigure (Build.configure ext st).1 =
          (st.vc.dirty && st.fs.cachefile.isNone && ext.isSome)) := by
  refine ⟨?_, ?_, ?_⟩
  · intro st
    rcases st with ⟨⟨de, cd, bd, dd, cf, pw⟩, vc⟩
    cases de <;> cases cd <;> cases hvc : vc.dirty <;> rcases cf with _ | lines <;>
      simp [needsConfigure, needsCacheRegeneration, cacheFileOnDisk, hvc]
  · intro st h
    rcases st with ⟨⟨de, cd, bd, dd, cf, pw⟩, vc⟩
    dsimp only at h
    subst h
    simp [needsConfigure]
  · intro st ext
    rcases st with ⟨⟨de, cd, bd, dd, cf, pw⟩, vc⟩
    rcases cf with _ | lines
    · cases hvc : vc.dirty <;> rcases ext with _ | elines <;>
        simp [Build.configure, needsConfigure, needsCacheRegeneration,
              cacheFileOnDisk, createDir, applyDir, hvc]
    · cases hvc : vc.dirty <;> rcases ext with _ | elines <;>
        simp [Build.configure, needsConfigure, needsCacheRegeneration,
              cacheFileOnDisk, createDir, applyDir, CMakeCache.commit, hvc]

/-- A configured, committed state: directory and sentinel present, on-disk
cache present, in-memory cache clean. -/
def c6DoneSt : LifeSt :=
  { fs := { dirExists := true, configureDone := true, buildDone := none,
            depsDone := true, cachefile := some ["CMAKE_BUILD_TYPE:STRING=Release"],
            preloadWritten := true },
    vc := { vars := [{ name := "CMAKE_BUILD_TYPE", val := "Release",
                       vartype := "STRING", dirty := false, from_input := true }],
            dirty := false } }

/-- Witness for `c6_needs_configure_amended`: the characterization at the
fresh and the configured state, the fresh-directory part, and the
post-configure formula at a state whose on-disk cache exists (the dirty
variables get committed, so another configure is not needed). -/
theorem c6_needs_configure_witness :
    (needsConfigure c6FreshSt = true ↔
      (c6FreshSt.fs.dirExists = false ∨ c6FreshSt.fs.configureDone = false ∨
        (cacheFileOnDisk c6FreshSt.fs = true ∧ c6FreshSt.vc.dirty = true)))
    ∧ needsConfigure c6FreshSt = true
    ∧ needsConfigure ((Build.configure c6Ext { fs := c6DoneSt.fs, vc := c6FreshVc }).1) =
        (c6FreshVc.dirty && c6DoneSt.fs.cachefile.isNone && c6Ext.isSome)
    ∧ needsConfigure ((Build.configure c6Ext { fs := c6DoneSt.fs, vc := c6FreshVc }).1) = false := by
  refine ⟨c6_needs_configure_amended.1 c6FreshSt,
          c6_needs_configure_amended.2.1 c6FreshSt (by decide),
          c6_needs_configure_amended.2.2 { fs := c6DoneSt.fs, vc := c6FreshVc } c6Ext, ?_⟩
  rw [c6_needs_configure_amended.2.2 { fs := c6DoneSt.fs, vc := c6FreshVc } c6Ext]
  decide

theorem needsConfigure_createDir (st : LifeSt)
    (h1 : st.fs.configureDone = true → st.fs.dirExists = true)
    (h2 : st.fs.cachefile.isSome = true → st.fs.dirExists = true) :
    needsConfigure { fs := createDir st.fs, vc := st.vc } = needsConfigure st := by
  rcases st with ⟨⟨de, cd, bd, dd, cf, pw⟩, vc⟩
  dsimp only at h1 h2
  cases de
  · cases cd
    · rcases cf with _ | lines
      · simp [needsConfigure, needsCacheRegeneration, cacheFileOnDisk, createDir]
      · exact absurd (h2 rfl) (by simp)
    · exact absurd (h1 rfl) (by simp)
  · simp [needsConfigure, needsCacheRegeneration, cacheFileOnDisk, createDir]

/-- Claim C7: `build(targets)` runs the external configure exactly when
`needs_configure()` held on entry (one implicit configure, emitted before
any build command); an empty target list defaults to `["ALL_BUILD"]` for an
MSVC compiler and `["all"]` otherwise; the external tool is then invoked
once per target, in order, each invocation carrying a single target; and
the build-done sentinel is written recording the last command. -/
theorem c7_build_contract (is_msvc : Bool) (ext : Option (List String))
    (targets : List String) (st : LifeSt)
    (h1 : st.fs.configureDone = true → st.fs.dirExists = true)
    (h2 : st.fs.cachefile.isSome = true → st.fs.dirExists = true) :
    (Build.build is_msvc ext targets st).2 =
      (if needsConfigure st then [Cmd.configureCmd] else [])
        ++ (if targets.isEmpty then (if is_msvc then ["ALL_BUILD"] else ["all"])
            else targets).map Cmd.targetCmd
    ∧ (Build.build is_msvc ext targets st).1.fs.buildDone =
        some ((if targets.isEmpty then (if is_msvc then ["ALL_BUILD"] else ["all"])
              else targets).getLastD "") := by
  have hnc := needsConfigure_createDir st h1 h2
  unfold Build.build
  dsimp only
  rw [hnc]
  by_cases h : needsConfigure st
  · rw [if_pos h, if_pos h]
    exact ⟨rfl, rfl⟩
  · rw [if_neg h, if_neg h]
    exact ⟨rfl, rfl⟩

/-- Witness for `c7_build_contract`: a build on a fresh never-configured
state with an empty target list and a non-MSVC compiler performs exactly
one configure invocation followed by one `all`-target build invocation, and
records `all` in the build-done sentinel. -/
theorem c7_build_witness :
    (Build.build false c6Ext [] c6FreshSt).2 = [Cmd.configureCmd, Cmd.targetCmd "all"]
    ∧ (Build.build false c6Ext [] c6FreshSt).1.fs.buildDone = some "all" := by
  have h := c7_build_contract false c6Ext [] c6FreshSt (by decide) (by decide)
  refine ⟨?_, ?_⟩
  · rw [h.1]
    decide
  · rw [h.2]
    decide

theorem dupConfigure_configureDone (pc : Bool) (ext : Option (List String))
    (fs : DirFs) (vc : CMakeCache) :
    (dupConfigure pc ext fs vc).1.configureDone = true := by
  unfold dupConfigure
  rcases ext with _ | lines <;> rfl

theorem dupBuild_fields (pc m : Bool) (ext : Option (List String))
    (fs : DirFs) (vc : CMakeCache) :
    (dupBuild pc m ext fs vc).1.buildDone.isSome = true
    ∧ (fs.configureDone = true → (dupBuild pc m ext fs vc).1.configureDone = true) := by
  unfold dupBuild
  dsimp only
  constructor
  · rfl
  · intro h
    split
    · exact dupConfigure_configureDone pc ext _ vc
    · exact h

theorem dupInstall_fields (pc m f : Bool) (ext : Option (List String))
    (fs : DirFs) (vc : CMakeCache)
    (hb : fs.buildDone.isSome = true) (hc : fs.configureDone = true) :
    (dupInstall pc m f ext fs vc).1.1.buildDone.isSome = true
    ∧ (dupInstall pc m f ext fs vc).1.1.configureDone = true := by
  unfold dupInstall
  dsimp only
  split
  · exact ⟨(dupBuild_fields pc m ext _ vc).1, (dupBuild_fields pc m ext _ vc).2 hc⟩
  · exact ⟨hb, hc⟩

theorem dupInstall_state_ignores_failure (pc m : Bool) (ext : Option (List String))
    (fs : DirFs) (vc : CMakeCache) :
    (dupInstall pc m true ext fs vc).1 = (dupInstall pc m false ext fs vc).1 := rfl

/-- Claim C8, the dependency-handling contract.  Part 1: with the
`cmany_deps.done` sentinel present, `handle_deps` returns immediately with
no state change.  Part 2: with a dependency source configured and the
sentinel absent, it runs configure and build on the shallow copy (the copy
ends configured and built), sets the parent's `CMAKE_PREFIX_PATH` cache
variable to the parent's own install directory with type `PATH`, and writes
the parent's sentinel — and the resulting state is identical whether the
copy's install step failed or succeeded (the failure is swallowed, never
propagated: `handleDeps` is a total function into states).  Part 3 records
that the copy's dependency pointer is cleared, so its own dependency
handling takes the trivial branch. -/
theorem c8_handle_deps_contract (b : DepBuild) (ext : Option (List String))
    (st : DepSt) (d : String)
    (hdeps : b.deps = some d) (hnotdone : st.parentFs.depsDone = false) :
    (∀ (st2 : DepSt) (f : Bool), st2.parentFs.depsDone = true →
        Build.handleDeps b f ext st2 = st2)
    ∧ (∀ f : Bool,
        (Build.handleDeps b f ext st).parentFs.depsDone = true
        ∧ (Build.handleDeps b f ext st).dupFs.configureDone = true
        ∧ (Build.handleDeps b f ext st).dupFs.buildDone.isSome = true
        ∧ ((Build.handleDeps b f ext st).vc.get "CMAKE_PREFIX_PATH").map Var.val
            = some (if b.windows then backslashToSlash b.installdir else b.installdir)
        ∧ ((Build.handleDeps b f ext st).vc.get "CMAKE_PREFIX_PATH").map Var.vartype
            = some "PATH")
    ∧ Build.handleDeps b true ext st = Build.handleDeps b false ext st
    ∧ (∀ bo : BuildObj, (BuildObj.mkDup bo).deps = none) := by
  have hred : ∀ f : Bool,
      Build.handleDeps b f ext st =
        (let pc := cacheFileOnDisk st.parentFs
         let r1 := dupConfigure pc ext st.dupFs st.vc
         let r2 := dupBuild pc b.is_msvc ext r1.1 r1.2
         let r3 := dupInstall pc b.is_msvc f ext r2.1 r2.2
         let vc := (CMakeCache.pset r3.1.2 b.windows "CMAKE_PREFIX_PATH"
                     b.installdir false none).1
         { parentFs := { st.parentFs with depsDone := true },
           dupFs := r3.1.1, vc := vc }) := by
    intro f
    unfold Build.handleDeps
    rw [if_neg (by simp [hnotdone]), hdeps]
  refine ⟨?_, ?_, ?_, fun bo => rfl⟩
  · intro st2 f h
    unfold Build.handleDeps
    rw [if_pos h]
  · intro f
    rw [hred f]
    dsimp only
    have hcfg := dupConfigure_configureDone (cacheFileOnDisk st.parentFs) ext st.dupFs st.vc
    have hbld := dupBuild_fields (cacheFileOnDisk st.parentFs) b.is_msvc ext
        (dupConfigure (cacheFileOnDisk st.parentFs) ext st.dupFs st.vc).1
        (dupConfigure (cacheFileOnDisk st.parentFs) ext st.dupFs st.vc).2
    have hins := dupInstall_fields (cacheFileOnDisk st.parentFs) b.is_msvc f ext
        (dupBuild (cacheFileOnDisk st.parentFs) b.is_msvc ext
          (dupConfigure (cacheFileOnDisk st.parentFs) ext st.dupFs st.vc).1
          (dupConfigure (cacheFileOnDisk st.parentFs) ext st.dupFs st.vc).2).1
        (dupBuild (cacheFileOnDisk st.parentFs) b.is_msvc ext
          (dupConfigure (cacheFileOnDisk st.parentFs) ext st.dupFs st.vc).1
          (dupConfigure (cacheFileOnDisk st.parentFs) ext st.dupFs st.vc).2).2
        hbld.1 (hbld.2 hcfg)
    refine ⟨rfl, hins.2, hins.1, ?_, ?_⟩
    · unfold CMakeCache.pset
      exact (setvar_get_self _ "CMAKE_PREFIX_PATH" _ "PATH" false none).1
    · unfold CMakeCache.pset
      exact (setvar_get_self _ "CMAKE_PREFIX_PATH" _ "PATH" false none).2
  · rw [hred true, hred false]
    dsimp only
    rw [dupInstall_state_ignores_failure]

/-- A concrete parent configuration for the `handle_deps` witness. -/
def c8Build : DepBuild :=
  { installdir := "/install/linux-x86_64-gcc6.2-Release",
    deps := some "/src/proj/deps",
    deps_pfx := "/build/linux-x86_64-gcc6.2-Release/cmany_deps-install",
    is_msvc := false, windows := false }

/-- A concrete joint state for the `handle_deps` witness: parent directory
created, nothing configured yet, nested directory absent, dirty input
variable in the shared cache. -/
def c8St : DepSt :=
  { parentFs := { dirExists := true, configureDone := false, buildDone := none,
                  depsDone := false, cachefile := none, preloadWritten := false },
    dupFs := DirFs.fresh, vc := c6FreshVc }

/-- Witness for `c8_handle_deps_contract` at the concrete parent `c8Build`
and state `c8St`, with the dependency install step failing. -/
theorem c8_handle_deps_witness :
    Build.handleDeps c8Build true c6Ext
        { parentFs := { dirExists := true, configureDone := false, buildDone := none,
                        depsDone := true, cachefile := none, preloadWritten := false },
          dupFs := c8St.dupFs, vc := c8St.vc }
      = { parentFs := { dirExists := true, configureDone := false, buildDone := none,
                        depsDone := true, cachefile := none, preloadWritten := false },
          dupFs := c8St.dupFs, vc := c8St.vc }
    ∧ (Build.handleDeps c8Build true c6Ext c8St).parentFs.depsDone = true
    ∧ (Build.handleDeps c8Build true c6Ext c8St).dupFs.configureDone = true
    ∧ (Build.handleDeps c8Build true c6Ext c8St).dupFs.buildDone.isSome = true
    ∧ ((Build.handleDeps c8Build true c6Ext c8St).vc.get "CMAKE_PREFIX_PATH").map Var.val
        = some (if c8Build.windows then backslashToSlash c8Build.installdir
                else c8Build.installdir)
    ∧ ((Build.handleDeps c8Build true c6Ext c8St).vc.get "CMAKE_PREFIX_PATH").map Var.vartype
        = some "PATH"
    ∧ Build.handleDeps c8Build true c6Ext c8St = Build.handleDeps c8Build false c6Ext c8St := by
  have h := c8_handle_deps_contract c8Build c6Ext c8St "/src/proj/deps" rfl rfl
  exact ⟨h.1 _ true rfl, (h.2.1 true).1, (h.2.1 true).2.1, (h.2.1 true).2.2.1,
         (h.2.1 true).2.2.2.1, (h.2.1 true).2.2.2.2, h.2.2.1⟩
